import Mathlib

/-!
Verification of the investment-calculator repository.

The projection engine (the `summary` useMemo in the main page component) is
embedded over ℚ: the source performs exact real-number formulas in floating
point, and the claims under study are algebraic/structural, so rational
arithmetic is the faithful idealisation.  Stateful React handlers are embedded
as pure state-transition functions.
-/

namespace InvestCalc

/-- `type ContributionFrequency = "annual" | "monthly"`. -/
inductive ContributionFrequency where
  | annual
  | monthly
deriving DecidableEq, Repr

/-- `type InvestmentInputs` from the main page component. -/
structure InvestmentInputs where
  startingAmount : ℚ
  contributionAmount : ℚ
  contributionFrequency : ContributionFrequency
  annualGrowthRate : ℚ
  inflationRate : ℚ
  yearsToGrow : ℚ
deriving DecidableEq, Repr

/-- `type YearlySnapshot` from the main page component. -/
structure YearlySnapshot where
  year : ℕ
  contribution : ℚ
  growth : ℚ
  balance : ℚ
  totalContributions : ℚ
  realBalance : ℚ
deriving DecidableEq, Repr

/-- The mutable locals of the `summary` useMemo: the cross-year accumulators
`balance`, `totalContributions`, `inflationFactor` together with the per-year
accumulators `contributionThisYear` and `growthThisYear`. -/
structure SimState where
  balance : ℚ
  totalContributions : ℚ
  inflationFactor : ℚ
  contributionThisYear : ℚ
  growthThisYear : ℚ
deriving DecidableEq, Repr

/-- `const monthlyGrowthRate = inputs.annualGrowthRate / 100 / 12`. -/
def monthlyGrowthRate (inputs : InvestmentInputs) : ℚ :=
  inputs.annualGrowthRate / 100 / 12

/-- `const monthlyInflationRate = inputs.inflationRate / 100 / 12`. -/
def monthlyInflationRate (inputs : InvestmentInputs) : ℚ :=
  inputs.inflationRate / 100 / 12

/-- The `contribution` local of the month loop:
`frequency === "monthly" ? contributionAmount : month === 1 ? contributionAmount : 0`. -/
def monthContribution (inputs : InvestmentInputs) (month : ℕ) : ℚ :=
  match inputs.contributionFrequency with
  | .monthly => inputs.contributionAmount
  | .annual => if month = 1 then inputs.contributionAmount else 0

/-- One iteration of the inner month loop of the `summary` useMemo:
the contribution (every month when monthly, month 1 only when annual) is
added when strictly positive, then growth is applied to the post-contribution
balance, then the inflation factor accumulates when the monthly inflation
rate is strictly positive. -/
def monthStep (inputs : InvestmentInputs) (month : ℕ) (s : SimState) : SimState :=
  let contribution : ℚ := monthContribution inputs month
  let s1 :=
    if contribution > 0 then
      { s with
        balance := s.balance + contribution
        contributionThisYear := s.contributionThisYear + contribution
        totalContributions := s.totalContributions + contribution }
    else s
  let growth := s1.balance * monthlyGrowthRate inputs
  let s2 :=
    { s1 with
      balance := s1.balance + growth
      growthThisYear := s1.growthThisYear + growth }
  if monthlyInflationRate inputs > 0 then
    { s2 with inflationFactor := s2.inflationFactor * (1 + monthlyInflationRate inputs) }
  else s2

/-- The month indices `1..12` of `for (let month = 1; month <= 12; month++)`. -/
def yearMonths : List ℕ := [1, 2, 3, 4, 5, 6, 7, 8, 9, 10, 11, 12]

/-- One iteration of the outer year loop, before the snapshot is emitted:
reset the per-year accumulators to 0 and run the twelve month steps. -/
def runYear (inputs : InvestmentInputs) (s : SimState) : SimState :=
  yearMonths.foldl (fun acc month => monthStep inputs month acc)
    { s with contributionThisYear := 0, growthThisYear := 0 }

/-- The snapshot `rows.push({...})` emits at the end of a year, given the
state after that year's twelve months. -/
def mkSnapshot (year : ℕ) (s : SimState) : YearlySnapshot :=
  { year := year
    contribution := s.contributionThisYear
    growth := s.growthThisYear
    balance := s.balance
    totalContributions := s.totalContributions
    realBalance := s.balance / s.inflationFactor }

/-- The year loop from year number `year`, for `n` remaining iterations:
returns the emitted snapshots and the final state. -/
def simFrom (inputs : InvestmentInputs) : ℕ → ℕ → SimState → List YearlySnapshot × SimState
  | _, 0, s => ([], s)
  | year, n + 1, s =>
    let s' := runYear inputs s
    let rest := simFrom inputs (year + 1) n s'
    (mkSnapshot year s' :: rest.1, rest.2)

/-- Number of iterations of `for (let year = 1; year <= inputs.yearsToGrow; year++)`:
the loop runs for each integer `year ≥ 1` with `year ≤ yearsToGrow`. -/
def numYears (inputs : InvestmentInputs) : ℕ :=
  (⌊inputs.yearsToGrow⌋).toNat

/-- The record returned by the `summary` useMemo. -/
structure Summary where
  rows : List YearlySnapshot
  finalBalance : ℚ
  finalRealBalance : ℚ
  totalContributions : ℚ
  totalGrowth : ℚ
deriving DecidableEq, Repr

/-- Initial state of the `summary` useMemo locals:
`balance = totalContributions = startingAmount`, `inflationFactor = 1`. -/
def initState (inputs : InvestmentInputs) : SimState :=
  { balance := inputs.startingAmount
    totalContributions := inputs.startingAmount
    inflationFactor := 1
    contributionThisYear := 0
    growthThisYear := 0 }

/-- The `summary` useMemo of the main page component:
`finalBalance = rows.at(-1)?.balance ?? inputs.startingAmount` and
`finalRealBalance = rows.at(-1)?.realBalance ?? finalBalance`. -/
def summary (inputs : InvestmentInputs) : Summary :=
  let result := simFrom inputs 1 (numYears inputs) (initState inputs)
  let rows := result.1
  let finalBalance := ((rows.getLast?).map (·.balance)).getD inputs.startingAmount
  let finalRealBalance := ((rows.getLast?).map (·.realBalance)).getD finalBalance
  { rows := rows
    finalBalance := finalBalance
    finalRealBalance := finalRealBalance
    totalContributions := result.2.totalContributions
    totalGrowth := finalBalance - result.2.totalContributions }

/-- Data-model constraints on `InvestmentInputs` from the spec:
startingAmount and contributionAmount are non-negative. -/
def ValidInputs (inputs : InvestmentInputs) : Prop :=
  0 ≤ inputs.startingAmount ∧ 0 ≤ inputs.contributionAmount

/-- The contribution actually applied to the balance in a month: the code
guards `if (contribution > 0)`, so a non-positive contribution leaves all
accumulators untouched. -/
def appliedContribution (inputs : InvestmentInputs) (month : ℕ) : ℚ :=
  if monthContribution inputs month > 0 then monthContribution inputs month else 0

/-- The cross-year state after `k` further iterations of the outer year loop. -/
def afterYears (inputs : InvestmentInputs) : ℕ → SimState → SimState
  | 0, s => s
  | k + 1, s => afterYears inputs k (runYear inputs s)

/-- JS `string.trim()`: strip leading and trailing whitespace.  Written by
structural recursion over the character list so that it evaluates inside the
kernel. -/
def jsTrim (s : String) : String :=
  ⟨((s.data.dropWhile Char.isWhitespace).reverse.dropWhile Char.isWhitespace).reverse⟩

/-- `type Scenario` from the main page component. -/
structure Scenario where
  id : String
  name : String
  createdAt : String
  inputs : InvestmentInputs
deriving DecidableEq, Repr

/-- The component state the guest-mode save path reads and writes.  `storage`
is the device localStorage content under the active key, as the stored list:
the effect at the top of the component writes `JSON.stringify(scenarios)`
whenever `scenarios` changes while unauthenticated and `storageReady`. -/
structure GuestState where
  inputs : InvestmentInputs
  scenarios : List Scenario
  storageReady : Bool
  storage : List Scenario
deriving DecidableEq, Repr

/-- `handleSaveScenario`, guest (unauthenticated) branch.  `promptResult` is
the `window.prompt` result (`none` = cancelled), `freshId` the
`crypto.randomUUID()` (or `Date.now()` fallback) value, `nowIso` the
`new Date().toISOString()` value.  The subsequent localStorage effect is
folded in as the `storage` update. -/
def handleSaveScenarioGuest (st : GuestState) (promptResult : Option String)
    (freshId nowIso : String) : GuestState :=
  match promptResult with
  | none => st
  | some name =>
    if jsTrim name = "" then st
    else if st.storageReady = false then st
    else
      let newScenario : Scenario :=
        { id := freshId, name := jsTrim name, createdAt := nowIso, inputs := st.inputs }
      let newList := (newScenario :: st.scenarios).take 10
      { st with scenarios := newList, storage := newList }

/-- The outcome of a `fetch` as the handlers observe it: an HTTP response
with a status and parsed body, or a transport-level rejection. -/
inductive FetchOutcome (α : Type) where
  | response (status : ℕ) (body : α)
  | transportError
deriving DecidableEq, Repr

/-- `Response.ok`: status in the 200–299 range. -/
def responseOk (status : ℕ) : Bool :=
  decide (200 ≤ status) && decide (status < 300)

/-- The component state the authenticated save/delete paths read and write. -/
structure AuthState where
  inputs : InvestmentInputs
  scenarios : List Scenario
  scenarioError : Option String
  isSavingScenario : Bool
deriving DecidableEq, Repr

/-- The `scenarioError` message set by a failed authenticated save. -/
def saveErrorMessage : String :=
  "We couldn't save this scenario. Please try again in a moment."

/-- The `scenarioError` message set by a failed authenticated delete. -/
def deleteErrorMessage : String :=
  "Unable to delete this scenario right now."

/-- `handleSaveScenario`, authenticated branch, from `setIsSavingScenario(true)`
to the `finally`: a non-ok status throws into the catch, an ok response's body
is prepended to `scenarios`, and the in-flight flag is cleared either way. -/
def handleSaveScenarioAuth (st : AuthState) (outcome : FetchOutcome Scenario) : AuthState :=
  let started := { st with isSavingScenario := true, scenarioError := none }
  match outcome with
  | .response status saved =>
    if responseOk status then
      { started with scenarios := saved :: started.scenarios, isSavingScenario := false }
    else
      { started with scenarioError := some saveErrorMessage, isSavingScenario := false }
  | .transportError =>
    { started with scenarioError := some saveErrorMessage, isSavingScenario := false }

/-- `handleDeleteScenario`, authenticated branch: requires the confirm prompt,
filters the list only on an ok response, sets `scenarioError` otherwise. -/
def handleDeleteScenarioAuth (st : AuthState) (id : String) (confirmed : Bool)
    (outcome : FetchOutcome String) : AuthState :=
  if confirmed = false then st
  else
    let started := { st with scenarioError := none }
    match outcome with
    | .response status _ =>
      if responseOk status then
        { started with scenarios := started.scenarios.filter (fun s => s.id ≠ id) }
      else
        { started with scenarioError := some deleteErrorMessage }
    | .transportError =>
      { started with scenarioError := some deleteErrorMessage }

/-- The state feeding the `canSaveScenario` guard. -/
structure SaveGuardState where
  isAuthenticated : Bool
  storageReady : Bool
  isSavingScenario : Bool
deriving DecidableEq, Repr

/-- `canSaveScenario = isAuthenticated ? !isSavingScenario : storageReady && !isSavingScenario`;
the save button is `disabled={!canSaveScenario}`. -/
def canSaveScenario (st : SaveGuardState) : Bool :=
  if st.isAuthenticated then !st.isSavingScenario
  else st.storageReady && !st.isSavingScenario

/-- A save request reaching the component: refused (`none`) when the guard
disables the button, otherwise the authenticated handler raises the in-flight
flag before awaiting the network. -/
def beginSave (st : SaveGuardState) : Option SaveGuardState :=
  if canSaveScenario st then some { st with isSavingScenario := true } else none

/-- The `finally` block of the authenticated save: the in-flight flag is
cleared whether the save succeeded or failed. -/
def resolveSave (st : SaveGuardState) (_success : Bool) : SaveGuardState :=
  { st with isSavingScenario := false }

/-- JS `string.slice(0, n)`: the first `n` characters. -/
def sliceTo (s : String) (n : ℕ) : String := ⟨s.data.take n⟩

/-- `POST /api/scenarios` (session present): `none` is the 400 response for a
missing body or all-whitespace name; otherwise the created scenario stores
`body.name.trim().slice(0, 80)`.  `serverId`/`serverNow` stand for the
database-assigned id and createdAt. -/
def postScenario (body : Option (String × InvestmentInputs))
    (serverId serverNow : String) : Option Scenario :=
  match body with
  | none => none
  | some (name, inputs) =>
    if jsTrim name = "" then none
    else some { id := serverId, name := sliceTo (jsTrim name) 80,
                createdAt := serverNow, inputs := inputs }

/-- The numeric fields of `InvestmentInputs`.  `handleInputChange` is invoked
from the input fields only with these (the frequency toggle has its own
handler). -/
inductive NumericField where
  | startingAmount
  | contributionAmount
  | annualGrowthRate
  | inflationRate
  | yearsToGrow
deriving DecidableEq, Repr

/-- Read a numeric field of `InvestmentInputs`. -/
def getField (inputs : InvestmentInputs) : NumericField → ℚ
  | .startingAmount => inputs.startingAmount
  | .contributionAmount => inputs.contributionAmount
  | .annualGrowthRate => inputs.annualGrowthRate
  | .inflationRate => inputs.inflationRate
  | .yearsToGrow => inputs.yearsToGrow

/-- `{ ...prev, [field]: v }` for a numeric field. -/
def setField (inputs : InvestmentInputs) : NumericField → ℚ → InvestmentInputs
  | .startingAmount, v => { inputs with startingAmount := v }
  | .contributionAmount, v => { inputs with contributionAmount := v }
  | .annualGrowthRate, v => { inputs with annualGrowthRate := v }
  | .inflationRate, v => { inputs with inflationRate := v }
  | .yearsToGrow, v => { inputs with yearsToGrow := v }

/-- `handleInputChange(field, value)`: `Number(value)` is represented by its
result, `none` standing for NaN, in which case `prev[field]` is kept —
`{ ...prev, [field]: prev[field] }` is `prev` itself. -/
def handleInputChange (field : NumericField) (numericValue : Option ℚ)
    (prev : InvestmentInputs) : InvestmentInputs :=
  match numericValue with
  | none => prev
  | some v => setField prev field v

/-- `const defaultInputs` of the main page component. -/
def defaultInputs : InvestmentInputs :=
  { startingAmount := 10000
    contributionAmount := 500
    contributionFrequency := .monthly
    annualGrowthRate := 8
    inflationRate := 5/2
    yearsToGrow := 20 }

/-- Example inputs with annual contribution frequency, used to witness the
annual-contribution properties. -/
def exAnnual : InvestmentInputs :=
  { defaultInputs with contributionFrequency := .annual }

/-- Example inputs with a zero inflation rate. -/
def exNoInflation : InvestmentInputs :=
  { defaultInputs with inflationRate := 0 }

/-- Example inputs with a zero time horizon. -/
def exZeroYears : InvestmentInputs :=
  { defaultInputs with yearsToGrow := 0 }

/-- Example guest-mode component state with an empty scenario list. -/
def exGuestState : GuestState :=
  { inputs := defaultInputs, scenarios := [], storageReady := true, storage := [] }

/-- Example authenticated component state with an empty scenario list. -/
def exAuthState : AuthState :=
  { inputs := defaultInputs, scenarios := [], scenarioError := none,
    isSavingScenario := false }

/-- An 81-character scenario name (no surrounding whitespace). -/
def longName : String := String.mk (List.replicate 81 'a')

/-! ### Month-level lemmas -/

theorem appliedContribution_nonneg (inputs : InvestmentInputs) (month : ℕ) :
    0 ≤ appliedContribution inputs month := by
  unfold appliedContribution
  split
  · linarith
  · exact le_refl 0

theorem monthStep_balance (inputs : InvestmentInputs) (month : ℕ) (s : SimState) :
    (monthStep inputs month s).balance =
      (s.balance + appliedContribution inputs month) * (1 + monthlyGrowthRate inputs) := by
  unfold monthStep appliedContribution
  by_cases hc : monthContribution inputs month > 0 <;>
    by_cases hi : monthlyInflationRate inputs > 0 <;>
      simp [hc, hi] <;> ring

theorem monthStep_contributionThisYear (inputs : InvestmentInputs) (month : ℕ) (s : SimState) :
    (monthStep inputs month s).contributionThisYear =
      s.contributionThisYear + appliedContribution inputs month := by
  unfold monthStep appliedContribution
  by_cases hc : monthContribution inputs month > 0 <;>
    by_cases hi : monthlyInflationRate inputs > 0 <;>
      simp [hc, hi]

theorem monthStep_totalContributions (inputs : InvestmentInputs) (month : ℕ) (s : SimState) :
    (monthStep inputs month s).totalContributions =
      s.totalContributions + appliedContribution inputs month := by
  unfold monthStep appliedContribution
  by_cases hc : monthContribution inputs month > 0 <;>
    by_cases hi : monthlyInflationRate inputs > 0 <;>
      simp [hc, hi]

theorem monthStep_growthThisYear (inputs : InvestmentInputs) (month : ℕ) (s : SimState) :
    (monthStep inputs month s).growthThisYear =
      s.growthThisYear + (s.balance + appliedContribution inputs month) * monthlyGrowthRate inputs := by
  unfold monthStep appliedContribution
  by_cases hc : monthContribution inputs month > 0 <;>
    by_cases hi : monthlyInflationRate inputs > 0 <;>
      simp [hc, hi] <;> ring

theorem monthStep_inflationFactor (inputs : InvestmentInputs) (month : ℕ) (s : SimState) :
    (monthStep inputs month s).inflationFactor =
      if monthlyInflationRate inputs > 0 then
        s.inflationFactor * (1 + monthlyInflationRate inputs)
      else s.inflationFactor := by
  unfold monthStep
  by_cases hc : monthContribution inputs month > 0 <;>
    by_cases hi : monthlyInflationRate inputs > 0 <;>
      simp [hc, hi]

/-! ### Year-level lemmas -/

theorem foldl_monthStep_contributionThisYear (inputs : InvestmentInputs) (ms : List ℕ) :
    ∀ s : SimState,
      (ms.foldl (fun acc month => monthStep inputs month acc) s).contributionThisYear =
        s.contributionThisYear + (ms.map (appliedContribution inputs)).sum := by
  induction ms with
  | nil => intro s; simp
  | cons m ms ih =>
    intro s
    simp only [List.foldl_cons, List.map_cons, List.sum_cons, ih,
      monthStep_contributionThisYear]
    ring

theorem foldl_monthStep_inflationFactor (inputs : InvestmentInputs) (ms : List ℕ) :
    ∀ s : SimState,
      (ms.foldl (fun acc month => monthStep inputs month acc) s).inflationFactor =
        s.inflationFactor *
          (if monthlyInflationRate inputs > 0 then
            (1 + monthlyInflationRate inputs) ^ ms.length else 1) := by
  induction ms with
  | nil => intro s; simp
  | cons m ms ih =>
    intro s
    simp only [List.foldl_cons, List.length_cons, ih, monthStep_inflationFactor]
    by_cases hi : monthlyInflationRate inputs > 0
    · simp only [hi, if_true, pow_succ]
      ring
    · simp [hi]

theorem foldl_monthStep_balance_le (inputs : InvestmentInputs) (ms : List ℕ)
    (hr : 0 ≤ monthlyGrowthRate inputs) :
    ∀ s : SimState, 0 ≤ s.balance →
      s.balance ≤ (ms.foldl (fun acc month => monthStep inputs month acc) s).balance ∧
        0 ≤ (ms.foldl (fun acc month => monthStep inputs month acc) s).balance := by
  induction ms with
  | nil => intro s hb; exact ⟨le_refl _, hb⟩
  | cons m ms ih =>
    intro s hb
    have hac := appliedContribution_nonneg inputs m
    have h1 : s.balance ≤ (monthStep inputs m s).balance := by
      rw [monthStep_balance]; nlinarith
    have h2 : 0 ≤ (monthStep inputs m s).balance := by
      rw [monthStep_balance]; nlinarith
    obtain ⟨h3, h4⟩ := ih (monthStep inputs m s) h2
    rw [List.foldl_cons]
    exact ⟨le_trans h1 h3, h4⟩

theorem foldl_monthStep_balance_const (inputs : InvestmentInputs) (ms : List ℕ)
    (hc : inputs.contributionAmount = 0) (hg : inputs.annualGrowthRate = 0) :
    ∀ s : SimState,
      (ms.foldl (fun acc month => monthStep inputs month acc) s).balance = s.balance := by
  have hac : ∀ month, appliedContribution inputs month = 0 := by
    intro month
    unfold appliedContribution monthContribution
    cases inputs.contributionFrequency <;> simp [hc]
  have hr : monthlyGrowthRate inputs = 0 := by
    unfold monthlyGrowthRate; rw [hg]; norm_num
  induction ms with
  | nil => intro s; simp
  | cons m ms ih =>
    intro s
    rw [List.foldl_cons, ih, monthStep_balance, hac, hr]
    ring

theorem runYear_contributionThisYear_annual (inputs : InvestmentInputs) (s : SimState)
    (hfreq : inputs.contributionFrequency = .annual)
    (hc : 0 ≤ inputs.contributionAmount) :
    (runYear inputs s).contributionThisYear = inputs.contributionAmount := by
  unfold runYear
  rw [foldl_monthStep_contributionThisYear]
  have h1 : appliedContribution inputs 1 = inputs.contributionAmount := by
    unfold appliedContribution monthContribution
    rw [hfreq]
    by_cases hpos : inputs.contributionAmount > 0 <;> simp [hpos] <;> linarith
  have h2 : ∀ month : ℕ, month ≠ 1 → appliedContribution inputs month = 0 := by
    intro month hm
    unfold appliedContribution monthContribution
    rw [hfreq]
    simp [hm]
  simp only [yearMonths, List.map_cons, List.map_nil, List.sum_cons, List.sum_nil, h1]
  rw [h2 2 (by omega), h2 3 (by omega), h2 4 (by omega), h2 5 (by omega),
    h2 6 (by omega), h2 7 (by omega), h2 8 (by omega), h2 9 (by omega),
    h2 10 (by omega), h2 11 (by omega), h2 12 (by omega)]
  ring

theorem runYear_inflationFactor (inputs : InvestmentInputs) (s : SimState) :
    (runYear inputs s).inflationFactor =
      s.inflationFactor *
        (if monthlyInflationRate inputs > 0 then
          (1 + monthlyInflationRate inputs) ^ 12 else 1) := by
  unfold runYear
  rw [foldl_monthStep_inflationFactor]
  rfl

theorem runYear_balance_le (inputs : InvestmentInputs) (s : SimState)
    (hr : 0 ≤ monthlyGrowthRate inputs) (hb : 0 ≤ s.balance) :
    s.balance ≤ (runYear inputs s).balance ∧ 0 ≤ (runYear inputs s).balance := by
  unfold runYear
  exact foldl_monthStep_balance_le inputs yearMonths hr
    { s with contributionThisYear := 0, growthThisYear := 0 } hb

theorem runYear_balance_const (inputs : InvestmentInputs) (s : SimState)
    (hc : inputs.contributionAmount = 0) (hg : inputs.annualGrowthRate = 0) :
    (runYear inputs s).balance = s.balance := by
  unfold runYear
  rw [foldl_monthStep_balance_const inputs yearMonths hc hg]

/-! ### Whole-simulation lemmas -/

theorem afterYears_succ_right (inputs : InvestmentInputs) :
    ∀ (k : ℕ) (s : SimState),
      afterYears inputs (k + 1) s = runYear inputs (afterYears inputs k s) := by
  intro k
  induction k with
  | zero => intro s; rfl
  | succ k ih =>
    intro s
    show afterYears inputs (k + 1) (runYear inputs s) = _
    rw [ih (runYear inputs s)]
    rfl

theorem afterYears_balance_nonneg (inputs : InvestmentInputs)
    (hr : 0 ≤ monthlyGrowthRate inputs) :
    ∀ (k : ℕ) (s : SimState), 0 ≤ s.balance → 0 ≤ (afterYears inputs k s).balance := by
  intro k
  induction k with
  | zero => intro s hb; exact hb
  | succ k ih =>
    intro s hb
    exact ih (runYear inputs s) (runYear_balance_le inputs s hr hb).2

theorem afterYears_balance_const (inputs : InvestmentInputs)
    (hc : inputs.contributionAmount = 0) (hg : inputs.annualGrowthRate = 0) :
    ∀ (k : ℕ) (s : SimState), (afterYears inputs k s).balance = s.balance := by
  intro k
  induction k with
  | zero => intro s; rfl
  | succ k ih =>
    intro s
    show (afterYears inputs k (runYear inputs s)).balance = s.balance
    rw [ih (runYear inputs s), runYear_balance_const inputs s hc hg]

theorem afterYears_inflationFactor (inputs : InvestmentInputs) :
    ∀ (k : ℕ) (s : SimState),
      (afterYears inputs k s).inflationFactor =
        s.inflationFactor *
          (if monthlyInflationRate inputs > 0 then
            (1 + monthlyInflationRate inputs) ^ (12 * k) else 1) := by
  intro k
  induction k with
  | zero => intro s; simp [afterYears]
  | succ k ih =>
    intro s
    show (afterYears inputs k (runYear inputs s)).inflationFactor = _
    rw [ih (runYear inputs s), runYear_inflationFactor]
    by_cases hi : monthlyInflationRate inputs > 0
    · simp only [hi, if_true]
      have h12 : 12 * (k + 1) = 12 + 12 * k := by ring
      rw [h12, pow_add]
      ring
    · simp [hi]

theorem simFrom_length (inputs : InvestmentInputs) :
    ∀ (n year : ℕ) (s : SimState), (simFrom inputs year n s).1.length = n := by
  intro n
  induction n with
  | zero => intro year s; rfl
  | succ n ih =>
    intro year s
    show ((mkSnapshot year (runYear inputs s)) :: _).length = n + 1
    simp [ih]

theorem simFrom_getElem? (inputs : InvestmentInputs) :
    ∀ (n year : ℕ) (s : SimState) (idx : ℕ), idx < n →
      ((simFrom inputs year n s).1)[idx]? =
        some (mkSnapshot (year + idx) (afterYears inputs (idx + 1) s)) := by
  intro n
  induction n with
  | zero => intro year s idx h; omega
  | succ n ih =>
    intro year s idx h
    cases idx with
    | zero =>
      show ((mkSnapshot year (runYear inputs s)) :: _)[0]? = _
      simp [afterYears]
    | succ idx =>
      show ((mkSnapshot year (runYear inputs s)) :: (simFrom inputs (year + 1) n (runYear inputs s)).1)[idx + 1]? = _
      rw [List.getElem?_cons_succ, ih (year + 1) (runYear inputs s) idx (by omega)]
      have hy : year + 1 + idx = year + (idx + 1) := by omega
      rw [hy]
      rfl

theorem summary_rows (inputs : InvestmentInputs) :
    (summary inputs).rows = (simFrom inputs 1 (numYears inputs) (initState inputs)).1 := rfl

theorem summary_rows_getElem? (inputs : InvestmentInputs) (idx : ℕ)
    (h : idx < numYears inputs) :
    ((summary inputs).rows)[idx]? =
      some (mkSnapshot (1 + idx) (afterYears inputs (idx + 1) (initState inputs))) := by
  rw [summary_rows]
  exact simFrom_getElem? inputs (numYears inputs) 1 (initState inputs) idx h

theorem summary_rows_length (inputs : InvestmentInputs) :
    (summary inputs).rows.length = numYears inputs := by
  rw [summary_rows]
  exact simFrom_length inputs (numYears inputs) 1 (initState inputs)

theorem summary_rows_get (inputs : InvestmentInputs) (idx : ℕ)
    (h : idx < (summary inputs).rows.length) :
    (summary inputs).rows.get ⟨idx, h⟩ =
      mkSnapshot (1 + idx) (afterYears inputs (idx + 1) (initState inputs)) := by
  have hn : idx < numYears inputs := by
    rwa [summary_rows_length] at h
  have := summary_rows_getElem? inputs idx hn
  rw [List.getElem?_eq_getElem h] at this
  simpa [List.get_eq_getElem] using this

theorem numYears_natCast (inputs : InvestmentInputs) (N : ℕ)
    (h : inputs.yearsToGrow = (N : ℚ)) : numYears inputs = N := by
  unfold numYears
  rw [h, Int.floor_natCast]
  simp

theorem numYears_of_nonpos (inputs : InvestmentInputs)
    (h : inputs.yearsToGrow ≤ 0) : numYears inputs = 0 := by
  unfold numYears
  have := Int.floor_nonpos h
  omega

theorem mem_summary_rows (inputs : InvestmentInputs) (snap : YearlySnapshot)
    (h : snap ∈ (summary inputs).rows) :
    ∃ idx : ℕ, idx < numYears inputs ∧
      snap = mkSnapshot (1 + idx) (afterYears inputs (idx + 1) (initState inputs)) := by
  rw [List.mem_iff_getElem?] at h
  obtain ⟨idx, hidx⟩ := h
  have hlt : idx < (summary inputs).rows.length := (List.getElem?_eq_some.mp hidx).1
  have hn : idx < numYears inputs := by rwa [summary_rows_length] at hlt
  rw [summary_rows_getElem? inputs idx hn] at hidx
  exact ⟨idx, hn, (Option.some_inj.mp hidx).symm⟩

theorem appliedContribution_of_nonneg (inputs : InvestmentInputs) (month : ℕ)
    (hc : 0 ≤ inputs.contributionAmount) :
    appliedContribution inputs month = monthContribution inputs month := by
  unfold appliedContribution
  split
  · rfl
  · rename_i hneg
    unfold monthContribution at hneg ⊢
    cases hfreq : inputs.contributionFrequency with
    | monthly =>
      rw [hfreq] at hneg
      rw [not_lt] at hneg
      linarith
    | annual =>
      rw [hfreq] at hneg
      by_cases hm : month = 1
      · simp only [hm, if_true] at hneg ⊢
        rw [not_lt] at hneg
        linarith
      · simp [hm]

/-! ### Claim theorems -/

/-- C1: each year is simulated as 12 monthly steps in which, with monthly
frequency, the contributionAmount is added to the balance every month and,
with annual frequency, only in month 1; the contribution joins the balance
before that month's growth, which equals the post-contribution balance times
annualGrowthRate/100/12 and is added to the balance; consequently with annual
frequency every year snapshot's contribution field equals contributionAmount
exactly once. -/
theorem month_loop_contribution_growth (inputs : InvestmentInputs)
    (hc : 0 ≤ inputs.contributionAmount) :
    (inputs.contributionFrequency = .monthly →
      ∀ (month : ℕ) (s : SimState),
        (monthStep inputs month s).balance =
          (s.balance + inputs.contributionAmount) +
            (s.balance + inputs.contributionAmount) * (inputs.annualGrowthRate / 100 / 12) ∧
        (monthStep inputs month s).growthThisYear =
          s.growthThisYear +
            (s.balance + inputs.contributionAmount) * (inputs.annualGrowthRate / 100 / 12))
    ∧ (inputs.contributionFrequency = .annual →
      ∀ s : SimState,
        (monthStep inputs 1 s).balance =
          (s.balance + inputs.contributionAmount) +
            (s.balance + inputs.contributionAmount) * (inputs.annualGrowthRate / 100 / 12) ∧
        ∀ month : ℕ, month ≠ 1 →
          (monthStep inputs month s).balance =
            s.balance + s.balance * (inputs.annualGrowthRate / 100 / 12))
    ∧ (inputs.contributionFrequency = .annual →
      ∀ snap ∈ (summary inputs).rows, snap.contribution = inputs.contributionAmount) := by
  have hrate : monthlyGrowthRate inputs = inputs.annualGrowthRate / 100 / 12 := rfl
  refine ⟨?_, ?_, ?_⟩
  · intro hfreq month s
    have hmc : monthContribution inputs month = inputs.contributionAmount := by
      unfold monthContribution; rw [hfreq]
    have hac := appliedContribution_of_nonneg inputs month hc
    rw [hmc] at hac
    constructor
    · rw [monthStep_balance, hac, hrate]; ring
    · rw [monthStep_growthThisYear, hac, hrate]
  · intro hfreq s
    constructor
    · have hmc : monthContribution inputs 1 = inputs.contributionAmount := by
        unfold monthContribution; rw [hfreq]; simp
      have hac := appliedContribution_of_nonneg inputs 1 hc
      rw [hmc] at hac
      rw [monthStep_balance, hac, hrate]; ring
    · intro month hm
      have hmc : monthContribution inputs month = 0 := by
        unfold monthContribution; rw [hfreq]; simp [hm]
      have hac := appliedContribution_of_nonneg inputs month hc
      rw [hmc] at hac
      rw [monthStep_balance, hac, hrate]; ring
  · intro hfreq snap hmem
    obtain ⟨idx, _, hsnap⟩ := mem_summary_rows inputs snap hmem
    rw [hsnap]
    show (afterYears inputs (idx + 1) (initState inputs)).contributionThisYear = _
    rw [afterYears_succ_right]
    exact runYear_contributionThisYear_annual inputs _ hfreq hc

/-- Witness for C1 at the default inputs with annual frequency. -/
theorem month_loop_contribution_growth_wit :
    (0 : ℚ) ≤ exAnnual.contributionAmount ∧
    ((exAnnual.contributionFrequency = .monthly →
      ∀ (month : ℕ) (s : SimState),
        (monthStep exAnnual month s).balance =
          (s.balance + exAnnual.contributionAmount) +
            (s.balance + exAnnual.contributionAmount) * (exAnnual.annualGrowthRate / 100 / 12) ∧
        (monthStep exAnnual month s).growthThisYear =
          s.growthThisYear +
            (s.balance + exAnnual.contributionAmount) * (exAnnual.annualGrowthRate / 100 / 12))
    ∧ (exAnnual.contributionFrequency = .annual →
      ∀ s : SimState,
        (monthStep exAnnual 1 s).balance =
          (s.balance + exAnnual.contributionAmount) +
            (s.balance + exAnnual.contributionAmount) * (exAnnual.annualGrowthRate / 100 / 12) ∧
        ∀ month : ℕ, month ≠ 1 →
          (monthStep exAnnual month s).balance =
            s.balance + s.balance * (exAnnual.annualGrowthRate / 100 / 12))
    ∧ (exAnnual.contributionFrequency = .annual →
      ∀ snap ∈ (summary exAnnual).rows, snap.contribution = exAnnual.contributionAmount)) :=
  ⟨by norm_num [exAnnual, defaultInputs],
   month_loop_contribution_growth exAnnual (by norm_num [exAnnual, defaultInputs])⟩

/-- C2: with yearsToGrow = N ≥ 1 the projection returns exactly N yearly
snapshots whose year fields are strictly increasing from 1 to N. -/
theorem projection_year_count (inputs : InvestmentInputs) (N : ℕ)
    (hv : ValidInputs inputs) (hN : 1 ≤ N) (hY : inputs.yearsToGrow = (N : ℚ)) :
    (summary inputs).rows.length = N ∧
      ∀ (idx : ℕ) (h : idx < (summary inputs).rows.length),
        ((summary inputs).rows.get ⟨idx, h⟩).year = idx + 1 := by
  constructor
  · rw [summary_rows_length, numYears_natCast inputs N hY]
  · intro idx h
    rw [summary_rows_get inputs idx h]
    show 1 + idx = idx + 1
    omega

/-- Witness for C2 at the default inputs (N = 20). -/
theorem projection_year_count_wit :
    (ValidInputs defaultInputs ∧ 1 ≤ 20 ∧ defaultInputs.yearsToGrow = ((20 : ℕ) : ℚ)) ∧
    ((summary defaultInputs).rows.length = 20 ∧
      ∀ (idx : ℕ) (h : idx < (summary defaultInputs).rows.length),
        ((summary defaultInputs).rows.get ⟨idx, h⟩).year = idx + 1) :=
  ⟨⟨⟨by norm_num [defaultInputs], by norm_num [defaultInputs]⟩, by norm_num,
      by norm_num [defaultInputs]⟩,
   projection_year_count defaultInputs 20
     ⟨by norm_num [defaultInputs], by norm_num [defaultInputs]⟩ (by norm_num)
     (by norm_num [defaultInputs])⟩

/-- C3: the inflation factor starts at 1 and is multiplied by
(1 + inflationRate/100/12) each month only when that monthly rate is strictly
positive, a zero or negative rate leaving it unchanged; hence each snapshot's
realBalance is its balance divided by the factor accumulated up to that year,
and with inflationRate = 0 realBalance equals balance in every snapshot. -/
theorem inflation_factor_real_balance (inputs : InvestmentInputs) :
    (initState inputs).inflationFactor = 1
    ∧ (∀ (month : ℕ) (s : SimState),
        (monthStep inputs month s).inflationFactor =
          if inputs.inflationRate / 100 / 12 > 0 then
            s.inflationFactor * (1 + inputs.inflationRate / 100 / 12)
          else s.inflationFactor)
    ∧ (∀ (idx : ℕ) (h : idx < (summary inputs).rows.length),
        ((summary inputs).rows.get ⟨idx, h⟩).realBalance =
          ((summary inputs).rows.get ⟨idx, h⟩).balance /
            (if inputs.inflationRate / 100 / 12 > 0 then
              (1 + inputs.inflationRate / 100 / 12) ^ (12 * (idx + 1)) else 1))
    ∧ (inputs.inflationRate = 0 →
        ∀ snap ∈ (summary inputs).rows, snap.realBalance = snap.balance) := by
  have hmr : monthlyInflationRate inputs = inputs.inflationRate / 100 / 12 := rfl
  have hfac : ∀ k : ℕ,
      (afterYears inputs k (initState inputs)).inflationFactor =
        if inputs.inflationRate / 100 / 12 > 0 then
          (1 + inputs.inflationRate / 100 / 12) ^ (12 * k) else 1 := by
    intro k
    rw [afterYears_inflationFactor, hmr]
    show (1 : ℚ) * _ = _
    rw [one_mul]
  refine ⟨rfl, ?_, ?_, ?_⟩
  · intro month s
    rw [monthStep_inflationFactor, hmr]
  · intro idx h
    rw [summary_rows_get inputs idx h]
    show (afterYears inputs (idx + 1) (initState inputs)).balance /
        (afterYears inputs (idx + 1) (initState inputs)).inflationFactor = _
    rw [hfac (idx + 1)]
    rfl
  · intro h0 snap hmem
    obtain ⟨idx, _, hsnap⟩ := mem_summary_rows inputs snap hmem
    rw [hsnap]
    show (afterYears inputs (idx + 1) (initState inputs)).balance /
        (afterYears inputs (idx + 1) (initState inputs)).inflationFactor =
      (afterYears inputs (idx + 1) (initState inputs)).balance
    rw [hfac (idx + 1), h0]
    norm_num

/-- Witness for C3 at the default inputs with inflationRate = 0. -/
theorem inflation_factor_real_balance_wit :
    ((initState exNoInflation).inflationFactor = 1
    ∧ (∀ (month : ℕ) (s : SimState),
        (monthStep exNoInflation month s).inflationFactor =
          if exNoInflation.inflationRate / 100 / 12 > 0 then
            s.inflationFactor * (1 + exNoInflation.inflationRate / 100 / 12)
          else s.inflationFactor)
    ∧ (∀ (idx : ℕ) (h : idx < (summary exNoInflation).rows.length),
        ((summary exNoInflation).rows.get ⟨idx, h⟩).realBalance =
          ((summary exNoInflation).rows.get ⟨idx, h⟩).balance /
            (if exNoInflation.inflationRate / 100 / 12 > 0 then
              (1 + exNoInflation.inflationRate / 100 / 12) ^ (12 * (idx + 1)) else 1))
    ∧ (exNoInflation.inflationRate = 0 →
        ∀ snap ∈ (summary exNoInflation).rows, snap.realBalance = snap.balance)) ∧
    (∀ snap ∈ (summary exNoInflation).rows, snap.realBalance = snap.balance) :=
  ⟨inflation_factor_real_balance exNoInflation,
   (inflation_factor_real_balance exNoInflation).2.2.2 (by norm_num [exNoInflation, defaultInputs])⟩

/-- C4: with startingAmount ≥ 0 and yearsToGrow ≥ 2, a strictly positive
growth rate and non-negative contributions make the end-of-year balance
monotonically increasing year-over-year, while a zero growth rate and zero
contributions keep every snapshot's balance at startingAmount. -/
theorem balance_monotone_or_constant (inputs : InvestmentInputs)
    (hs : 0 ≤ inputs.startingAmount) (hY : 2 ≤ inputs.yearsToGrow) :
    (0 < inputs.annualGrowthRate → 0 ≤ inputs.contributionAmount →
      ∀ (idx : ℕ) (h : idx + 1 < (summary inputs).rows.length),
        ((summary inputs).rows.get ⟨idx, Nat.lt_of_succ_lt h⟩).balance ≤
          ((summary inputs).rows.get ⟨idx + 1, h⟩).balance)
    ∧ (inputs.annualGrowthRate = 0 → inputs.contributionAmount = 0 →
        ∀ snap ∈ (summary inputs).rows, snap.balance = inputs.startingAmount) := by
  constructor
  · intro hg _ idx h
    have hr : 0 ≤ monthlyGrowthRate inputs := by
      unfold monthlyGrowthRate
      positivity
    rw [summary_rows_get inputs idx (Nat.lt_of_succ_lt h), summary_rows_get inputs (idx + 1) h]
    show (afterYears inputs (idx + 1) (initState inputs)).balance ≤
      (afterYears inputs (idx + 1 + 1) (initState inputs)).balance
    rw [afterYears_succ_right inputs (idx + 1)]
    have hb : 0 ≤ (afterYears inputs (idx + 1) (initState inputs)).balance :=
      afterYears_balance_nonneg inputs hr (idx + 1) (initState inputs) hs
    exact (runYear_balance_le inputs _ hr hb).1
  · intro hg hc snap hmem
    obtain ⟨idx, _, hsnap⟩ := mem_summary_rows inputs snap hmem
    rw [hsnap]
    show (afterYears inputs (idx + 1) (initState inputs)).balance = inputs.startingAmount
    rw [afterYears_balance_const inputs hc hg (idx + 1) (initState inputs)]
    rfl

/-- Witness for C4 at the default inputs. -/
theorem balance_monotone_or_constant_wit :
    ((0 : ℚ) ≤ defaultInputs.startingAmount ∧ (2 : ℚ) ≤ defaultInputs.yearsToGrow) ∧
    ((0 < defaultInputs.annualGrowthRate → 0 ≤ defaultInputs.contributionAmount →
      ∀ (idx : ℕ) (h : idx + 1 < (summary defaultInputs).rows.length),
        ((summary defaultInputs).rows.get ⟨idx, Nat.lt_of_succ_lt h⟩).balance ≤
          ((summary defaultInputs).rows.get ⟨idx + 1, h⟩).balance)
    ∧ (defaultInputs.annualGrowthRate = 0 → defaultInputs.contributionAmount = 0 →
        ∀ snap ∈ (summary defaultInputs).rows, snap.balance = defaultInputs.startingAmount)) :=
  ⟨⟨by norm_num [defaultInputs], by norm_num [defaultInputs]⟩,
   balance_monotone_or_constant defaultInputs (by norm_num [defaultInputs])
     (by norm_num [defaultInputs])⟩

/-- C5: with yearsToGrow ≤ 0 the projection yields no snapshots and falls
back to startingAmount for both finalBalance and finalRealBalance. -/
theorem empty_projection_fallback (inputs : InvestmentInputs)
    (hY : inputs.yearsToGrow ≤ 0) :
    (summary inputs).rows = []
    ∧ (summary inputs).finalBalance = inputs.startingAmount
    ∧ (summary inputs).finalRealBalance = inputs.startingAmount := by
  have h0 := numYears_of_nonpos inputs hY
  refine ⟨?_, ?_, ?_⟩ <;>
    simp [summary, h0, simFrom]

/-- Witness for C5 at the default inputs with a zero horizon. -/
theorem empty_projection_fallback_wit :
    exZeroYears.yearsToGrow ≤ 0 ∧
    ((summary exZeroYears).rows = []
    ∧ (summary exZeroYears).finalBalance = exZeroYears.startingAmount
    ∧ (summary exZeroYears).finalRealBalance = exZeroYears.startingAmount) :=
  ⟨by norm_num [exZeroYears, defaultInputs],
   empty_projection_fallback exZeroYears (by norm_num [exZeroYears, defaultInputs])⟩

/-- C6: a successful guest save generates a fresh unique id, prepends the new
scenario, truncates the list to the 10 most recent entries, leaves as first
element a scenario whose name and inputs equal the saved ones field for
field, and persists the full list to device storage. -/
theorem guest_save_round_trip (st : GuestState) (name freshId nowIso : String)
    (hready : st.storageReady = true) (hname : jsTrim name = name) (hne : name ≠ "")
    (hfresh : freshId ∉ st.scenarios.map Scenario.id)
    (hnodup : (st.scenarios.map Scenario.id).Nodup) :
    (handleSaveScenarioGuest st (some name) freshId nowIso).scenarios =
      (Scenario.mk freshId name nowIso st.inputs :: st.scenarios).take 10
    ∧ (handleSaveScenarioGuest st (some name) freshId nowIso).scenarios.head? =
        some (Scenario.mk freshId name nowIso st.inputs)
    ∧ (handleSaveScenarioGuest st (some name) freshId nowIso).scenarios.length ≤ 10
    ∧ ((handleSaveScenarioGuest st (some name) freshId nowIso).scenarios.map
        Scenario.id).Nodup
    ∧ (handleSaveScenarioGuest st (some name) freshId nowIso).storage =
        (handleSaveScenarioGuest st (some name) freshId nowIso).scenarios := by
  have ht : ¬ jsTrim name = "" := by rw [hname]; exact hne
  have hnr : ¬ st.storageReady = false := by rw [hready]; simp
  have hexp : handleSaveScenarioGuest st (some name) freshId nowIso =
      { st with
        scenarios := (Scenario.mk freshId name nowIso st.inputs :: st.scenarios).take 10
        storage := (Scenario.mk freshId name nowIso st.inputs :: st.scenarios).take 10 } := by
    simp only [handleSaveScenarioGuest]
    rw [if_neg ht, if_neg hnr, hname]
  rw [hexp]
  refine ⟨rfl, ?_, ?_, ?_, rfl⟩
  · rw [List.take_succ_cons]
    rfl
  · rw [List.length_take]
    exact min_le_left _ _
  · have hsub : List.Sublist
        (((Scenario.mk freshId name nowIso st.inputs :: st.scenarios).take 10).map
          Scenario.id)
        ((Scenario.mk freshId name nowIso st.inputs :: st.scenarios).map Scenario.id) :=
      ((Scenario.mk freshId name nowIso st.inputs ::
        st.scenarios).take_sublist 10).map Scenario.id
    have hall : ((Scenario.mk freshId name nowIso st.inputs ::
        st.scenarios).map Scenario.id).Nodup := by
      rw [List.map_cons]
      exact List.nodup_cons.mpr ⟨hfresh, hnodup⟩
    exact hsub.nodup hall

/-- Witness for C6: a guest save into an empty list. -/
theorem guest_save_round_trip_wit :
    (exGuestState.storageReady = true ∧ jsTrim "My plan" = "My plan" ∧
      ("My plan" : String) ≠ "" ∧
      "id-1" ∉ exGuestState.scenarios.map Scenario.id ∧
      (exGuestState.scenarios.map Scenario.id).Nodup) ∧
    ((handleSaveScenarioGuest exGuestState (some "My plan") "id-1" "t0").scenarios =
      (Scenario.mk "id-1" "My plan" "t0" exGuestState.inputs ::
        exGuestState.scenarios).take 10
    ∧ (handleSaveScenarioGuest exGuestState (some "My plan") "id-1" "t0").scenarios.head? =
        some (Scenario.mk "id-1" "My plan" "t0" exGuestState.inputs)
    ∧ (handleSaveScenarioGuest exGuestState (some "My plan") "id-1" "t0").scenarios.length ≤ 10
    ∧ ((handleSaveScenarioGuest exGuestState (some "My plan") "id-1" "t0").scenarios.map
        Scenario.id).Nodup
    ∧ (handleSaveScenarioGuest exGuestState (some "My plan") "id-1" "t0").storage =
        (handleSaveScenarioGuest exGuestState (some "My plan") "id-1" "t0").scenarios) :=
  ⟨⟨rfl, by decide, by decide, by decide, by decide⟩,
   guest_save_round_trip exGuestState "My plan" "id-1" "t0" rfl (by decide) (by decide)
     (by decide) (by decide)⟩

/-- C7 counterexample: the guest branch stores an 81-character prompt name
without shortening it, so a persisted scenario's name exceeds 80 characters. -/
theorem guest_name_over_80 :
    ((handleSaveScenarioGuest exGuestState (some longName) "id-1" "t0").scenarios.map
      (fun s => s.name.length)) = [81] ∧ ¬ (81 ≤ 80) := by
  constructor
  · decide
  · decide

/-- C7 (amended): both backends reject all-whitespace names before reaching
the store; every scenario the remote backend stores has a non-empty name of
at most 80 characters; the guest backend stores the trimmed prompt name,
which is non-empty but not bounded to 80 characters. -/
theorem scenario_name_invariants :
    (∀ (body : Option (String × InvestmentInputs)) (serverId serverNow : String)
        (sc : Scenario), postScenario body serverId serverNow = some sc →
          sc.name ≠ "" ∧ sc.name.length ≤ 80)
    ∧ (∀ (st : GuestState) (name freshId nowIso : String), jsTrim name = "" →
        handleSaveScenarioGuest st (some name) freshId nowIso = st)
    ∧ (∀ (st : GuestState) (name freshId nowIso : String) (sc : Scenario),
        st.storageReady = true → jsTrim name ≠ "" →
        (handleSaveScenarioGuest st (some name) freshId nowIso).scenarios.head? =
          some sc →
        sc.name = jsTrim name ∧ sc.name ≠ "") := by
  refine ⟨?_, ?_, ?_⟩
  · intro body serverId serverNow sc hpost
    match body with
    | none => cases hpost
    | some (name, inputs) =>
      simp only [postScenario] at hpost
      by_cases ht : jsTrim name = ""
      · rw [if_pos ht] at hpost
        cases hpost
      · rw [if_neg ht] at hpost
        have hsc := (Option.some_inj.mp hpost).symm
        subst hsc
        constructor
        · show sliceTo (jsTrim name) 80 ≠ ""
          intro hzero
          apply ht
          have hdata : ((jsTrim name).data.take 80) = [] := congrArg String.data hzero
          rcases (List.take_eq_nil_iff).mp hdata with h80 | hnil
          · cases h80
          · exact String.ext hnil
        · show ((jsTrim name).data.take 80).length ≤ 80
          rw [List.length_take]
          exact min_le_left _ _
  · intro st name freshId nowIso ht
    simp only [handleSaveScenarioGuest]
    rw [if_pos ht]
  · intro st name freshId nowIso sc hready ht hhead
    have hnr : ¬ st.storageReady = false := by rw [hready]; simp
    simp only [handleSaveScenarioGuest] at hhead
    rw [if_neg ht, if_neg hnr] at hhead
    rw [List.take_succ_cons, List.head?_cons] at hhead
    have hsc := (Option.some_inj.mp hhead).symm
    subst hsc
    exact ⟨rfl, ht⟩

/-- Witness for C7 (amended): a remote save and a guest save of the name
"My plan". -/
theorem scenario_name_invariants_wit :
    (postScenario (some ("My plan", defaultInputs)) "sid" "t1" =
        some (Scenario.mk "sid" "My plan" "t1" defaultInputs) ∧
      exGuestState.storageReady = true ∧ jsTrim "My plan" ≠ "" ∧
      (handleSaveScenarioGuest exGuestState (some "My plan") "id-1" "t0").scenarios.head? =
        some (Scenario.mk "id-1" "My plan" "t0" defaultInputs)) ∧
    ((Scenario.mk "sid" "My plan" "t1" defaultInputs).name ≠ "" ∧
      (Scenario.mk "sid" "My plan" "t1" defaultInputs).name.length ≤ 80) ∧
    ((Scenario.mk "id-1" "My plan" "t0" defaultInputs).name = jsTrim "My plan" ∧
      (Scenario.mk "id-1" "My plan" "t0" defaultInputs).name ≠ "") :=
  ⟨⟨by rfl, rfl, by decide, by rfl⟩,
   scenario_name_invariants.1 (some ("My plan", defaultInputs)) "sid" "t1"
     (Scenario.mk "sid" "My plan" "t1" defaultInputs) (by rfl),
   scenario_name_invariants.2.2 exGuestState "My plan" "id-1" "t0"
     (Scenario.mk "id-1" "My plan" "t0" defaultInputs) rfl (by decide) (by rfl)⟩

/-- C8: beginning a save raises the in-flight flag, which makes the guard
refuse a further save until the first resolves; resolving, success or
failure, clears the flag and restores the guard. -/
theorem save_in_flight_guard (st st' : SaveGuardState)
    (h : beginSave st = some st') :
    canSaveScenario st' = false
    ∧ beginSave st' = none
    ∧ ∀ success : Bool,
        (resolveSave st' success).isSavingScenario = false
        ∧ canSaveScenario (resolveSave st' success) = canSaveScenario st := by
  unfold beginSave at h
  split at h
  · rename_i hc
    have hst' : st' = { st with isSavingScenario := true } :=
      (Option.some_inj.mp h).symm
    subst hst'
    unfold canSaveScenario at hc ⊢
    unfold beginSave canSaveScenario resolveSave
    cases hA : st.isAuthenticated <;> cases hS : st.isSavingScenario <;>
      simp_all
  · cases h

/-- Witness for C8: a save begun from an idle authenticated state. -/
theorem save_in_flight_guard_wit :
    beginSave (SaveGuardState.mk true true false) =
      some (SaveGuardState.mk true true true) ∧
    (canSaveScenario (SaveGuardState.mk true true true) = false
    ∧ beginSave (SaveGuardState.mk true true true) = none
    ∧ ∀ success : Bool,
        (resolveSave (SaveGuardState.mk true true true) success).isSavingScenario = false
        ∧ canSaveScenario (resolveSave (SaveGuardState.mk true true true) success) =
            canSaveScenario (SaveGuardState.mk true true false)) :=
  ⟨by decide,
   save_in_flight_guard (SaveGuardState.mk true true false)
     (SaveGuardState.mk true true true) (by decide)⟩

/-- C9: a failed remote save or delete (non-2xx status or transport error)
leaves the scenario list and the inputs unchanged, only setting the error
message and clearing the in-flight flag; the list is mutated exactly on a
200-class response. -/
theorem remote_failure_frame (st : AuthState) :
    (∀ (status : ℕ) (saved : Scenario), responseOk status = false →
      (handleSaveScenarioAuth st (.response status saved)).scenarios = st.scenarios
      ∧ (handleSaveScenarioAuth st (.response status saved)).inputs = st.inputs
      ∧ (handleSaveScenarioAuth st (.response status saved)).scenarioError =
          some saveErrorMessage
      ∧ (handleSaveScenarioAuth st (.response status saved)).isSavingScenario = false)
    ∧ ((handleSaveScenarioAuth st .transportError).scenarios = st.scenarios
      ∧ (handleSaveScenarioAuth st .transportError).inputs = st.inputs
      ∧ (handleSaveScenarioAuth st .transportError).scenarioError =
          some saveErrorMessage
      ∧ (handleSaveScenarioAuth st .transportError).isSavingScenario = false)
    ∧ (∀ (status : ℕ) (saved : Scenario), responseOk status = true →
      (handleSaveScenarioAuth st (.response status saved)).scenarios =
        saved :: st.scenarios)
    ∧ (∀ (id : String) (status : ℕ) (body : String), responseOk status = false →
      (handleDeleteScenarioAuth st id true (.response status body)).scenarios =
        st.scenarios
      ∧ (handleDeleteScenarioAuth st id true (.response status body)).inputs = st.inputs
      ∧ (handleDeleteScenarioAuth st id true (.response status body)).scenarioError =
          some deleteErrorMessage)
    ∧ (∀ id : String,
      (handleDeleteScenarioAuth st id true .transportError).scenarios = st.scenarios
      ∧ (handleDeleteScenarioAuth st id true .transportError).inputs = st.inputs
      ∧ (handleDeleteScenarioAuth st id true .transportError).scenarioError =
          some deleteErrorMessage)
    ∧ (∀ (id : String) (status : ℕ) (body : String), responseOk status = true →
      (handleDeleteScenarioAuth st id true (.response status body)).scenarios =
        st.scenarios.filter (fun s => s.id ≠ id)) := by
  refine ⟨?_, ?_, ?_, ?_, ?_, ?_⟩
  · intro status saved hbad
    simp [handleSaveScenarioAuth, hbad]
  · simp [handleSaveScenarioAuth]
  · intro status saved hok
    simp [handleSaveScenarioAuth, hok]
  · intro id status body hbad
    simp [handleDeleteScenarioAuth, hbad]
  · intro id
    simp [handleDeleteScenarioAuth]
  · intro id status body hok
    simp [handleDeleteScenarioAuth, hok]

/-- Witness for C9: a 500 save response and a 500 delete response against the
example authenticated state. -/
theorem remote_failure_frame_wit :
    (responseOk 500 = false) ∧
    ((handleSaveScenarioAuth exAuthState
        (.response 500 (Scenario.mk "sid" "n" "t" defaultInputs))).scenarios =
      exAuthState.scenarios
    ∧ (handleSaveScenarioAuth exAuthState
        (.response 500 (Scenario.mk "sid" "n" "t" defaultInputs))).inputs =
      exAuthState.inputs
    ∧ (handleSaveScenarioAuth exAuthState
        (.response 500 (Scenario.mk "sid" "n" "t" defaultInputs))).scenarioError =
      some saveErrorMessage
    ∧ (handleSaveScenarioAuth exAuthState
        (.response 500 (Scenario.mk "sid" "n" "t" defaultInputs))).isSavingScenario =
      false) ∧
    ((handleDeleteScenarioAuth exAuthState "sid" true (.response 500 "e")).scenarios =
      exAuthState.scenarios
    ∧ (handleDeleteScenarioAuth exAuthState "sid" true (.response 500 "e")).inputs =
      exAuthState.inputs
    ∧ (handleDeleteScenarioAuth exAuthState "sid" true (.response 500 "e")).scenarioError =
      some deleteErrorMessage) :=
  ⟨by decide,
   (remote_failure_frame exAuthState).1 500 (Scenario.mk "sid" "n" "t" defaultInputs)
     (by decide),
   (remote_failure_frame exAuthState).2.2.2.1 "sid" 500 "e" (by decide)⟩

/-- C10: when the numeric conversion of the input string is NaN the handler
leaves the whole InvestmentInputs unchanged; when it succeeds only the named
field is replaced by the parsed number and every other field is unchanged. -/
theorem input_change_frame :
    (∀ (field : NumericField) (prev : InvestmentInputs),
      handleInputChange field none prev = prev)
    ∧ (∀ (field : NumericField) (v : ℚ) (prev : InvestmentInputs),
      getField (handleInputChange field (some v) prev) field = v
      ∧ (∀ g : NumericField, g ≠ field →
          getField (handleInputChange field (some v) prev) g = getField prev g)
      ∧ (handleInputChange field (some v) prev).contributionFrequency =
          prev.contributionFrequency) := by
  refine ⟨fun field prev => rfl, fun field v prev => ⟨?_, ?_, ?_⟩⟩
  · cases field <;> rfl
  · intro g hg
    cases field <;> cases g <;> first | rfl | exact absurd rfl hg
  · cases field <;> rfl

/-- Witness for C10: replacing startingAmount leaves yearsToGrow and the
frequency untouched, and a NaN conversion is a no-op. -/
theorem input_change_frame_wit :
    handleInputChange .startingAmount none defaultInputs = defaultInputs
    ∧ getField (handleInputChange .startingAmount (some 5) defaultInputs)
        .startingAmount = 5
    ∧ NumericField.yearsToGrow ≠ NumericField.startingAmount
    ∧ getField (handleInputChange .startingAmount (some 5) defaultInputs)
        .yearsToGrow = getField defaultInputs .yearsToGrow :=
  ⟨input_change_frame.1 NumericField.startingAmount defaultInputs,
   (input_change_frame.2 NumericField.startingAmount 5 defaultInputs).1,
   by decide,
   (input_change_frame.2 NumericField.startingAmount 5 defaultInputs).2.1
     NumericField.yearsToGrow (by decide)⟩

end InvestCalc
